import Mathlib

/-!
Shallow embedding of the PSA key-slot management core
(library/psa_crypto_slot_management.c) of this mbed TLS tree.

The slot table is embedded as an explicit state record passed to and
returned from each operation; the C array of PSA_KEY_SLOT_COUNT slots
becomes a list whose length plays the role of the count, so that the
compile-time constant relationship PSA_KEY_ID_VOLATILE_MIN =
PSA_KEY_ID_VENDOR_MAX - PSA_KEY_SLOT_COUNT + 1 is kept as a function of
that length. Machine integers are Nat: identifier values stay far below
2^32 in every range involved, and no arithmetic below overflows.

Constants and small helpers that live in headers outside the given
sources (identifier range bounds, slot occupancy test, the wipe helper,
the svc key id type) are modelled from the spec and marked so in their
doc comments. Everything else is translated line by line from the C
file.
-/

/-- Status codes (psa_status_t values used by this file). -/
inductive Status where
  | Success
  | InvalidHandle
  | DoesNotExist
  | BadState
  | InsufficientMemory
  | StorageFailure
  | NotSupported
  | InvalidArgument
  | CorruptionDetected
deriving DecidableEq, Repr

/-- Modelled from the spec: a key identifier is an integer value plus an
owner tag for multi-tenant disambiguation (mbedtls_svc_key_id_t with
owner encoding). -/
structure mbedtls_svc_key_id_t where
  key_id : Nat
  owner : Nat
deriving DecidableEq, Repr

/-- MBEDTLS_SVC_KEY_ID_GET_KEY_ID: the integer part of the identifier. -/
def MBEDTLS_SVC_KEY_ID_GET_KEY_ID (key : mbedtls_svc_key_id_t) : Nat :=
  key.key_id

/-- Modelled from the spec: comparison of complete identifiers, owner tag
included (mbedtls_svc_key_id_equal). -/
def mbedtls_svc_key_id_equal (a b : mbedtls_svc_key_id_t) : Bool :=
  a == b

/-- Modelled from the spec: the all-zero identifier is the empty
sentinel; a handle is null when it is that sentinel
(psa_key_handle_is_null). -/
def psa_key_handle_is_null (handle : mbedtls_svc_key_id_t) : Bool :=
  handle == { key_id := 0, owner := 0 }

/-- First identifier of the user persistent range (PSA_KEY_ID_USER_MIN).
Modelled from the spec: identifier space is partitioned into disjoint
user, vendor and volatile ranges. -/
def PSA_KEY_ID_USER_MIN : Nat := 1

/-- Last identifier of the user persistent range (PSA_KEY_ID_USER_MAX). -/
def PSA_KEY_ID_USER_MAX : Nat := 0x3fffffff

/-- First identifier of the vendor range (PSA_KEY_ID_VENDOR_MIN). -/
def PSA_KEY_ID_VENDOR_MIN : Nat := 0x40000000

/-- Last identifier of the vendor range (PSA_KEY_ID_VENDOR_MAX). -/
def PSA_KEY_ID_VENDOR_MAX : Nat := 0x7fffffff

/-- Modelled from the spec: the last n identifiers of the vendor range
are reserved as volatile identifiers, where n is the slot count, so that
a volatile identifier maps to the fixed slot index id - VOLATILE_MIN
(PSA_KEY_ID_VOLATILE_MIN as a function of PSA_KEY_SLOT_COUNT). -/
def PSA_KEY_ID_VOLATILE_MIN (n : Nat) : Nat :=
  PSA_KEY_ID_VENDOR_MAX - n + 1

/-- Last volatile identifier (PSA_KEY_ID_VOLATILE_MAX). -/
def PSA_KEY_ID_VOLATILE_MAX : Nat := PSA_KEY_ID_VENDOR_MAX

/-- Modelled from the spec: volatile range membership test
(psa_key_id_is_volatile), parametrised by the slot count n. -/
def psa_key_id_is_volatile (n : Nat) (key_id : Nat) : Bool :=
  decide (PSA_KEY_ID_VOLATILE_MIN n ≤ key_id) &&
    decide (key_id ≤ PSA_KEY_ID_VOLATILE_MAX)

/-- PSA_KEY_LIFETIME_VOLATILE. -/
def PSA_KEY_LIFETIME_VOLATILE : Nat := 0

/-- PSA_KEY_LIFETIME_PERSISTENT. -/
def PSA_KEY_LIFETIME_PERSISTENT : Nat := 1

/-- Modelled from the spec: a lifetime designates a secure-element
location when its location field (the bits above the persistence byte)
is nonzero. -/
def psa_key_lifetime_is_ext (lifetime : Nat) : Bool :=
  decide (256 ≤ lifetime)

/-- Key attributes held in a slot: identifier and lifetime. -/
structure psa_core_key_attributes_t where
  id : mbedtls_svc_key_id_t
  lifetime : Nat
deriving DecidableEq, Repr

/-- One key slot: attributes plus key material or, for secure-element
keys, the device-side reference record. -/
structure psa_key_slot_t where
  attr : psa_core_key_attributes_t
  material : List Nat
  se_slot_number : List Nat
deriving DecidableEq, Repr

/-- The all-zero (empty) slot. -/
def emptySlot : psa_key_slot_t :=
  { attr := { id := { key_id := 0, owner := 0 }, lifetime := 0 },
    material := [], se_slot_number := [] }

/-- Modelled from the spec: a slot is occupied exactly when its stored
identifier is not the all-zero sentinel (psa_is_key_slot_occupied). -/
def psa_is_key_slot_occupied (slot : psa_key_slot_t) : Bool :=
  !(slot.attr.id == { key_id := 0, owner := 0 })

/-- Modelled from the spec: wipe zeroizes the key material and resets
the slot attributes to the empty state (psa_wipe_key_slot). -/
def psa_wipe_key_slot (_slot : psa_key_slot_t) : Status × psa_key_slot_t :=
  (Status.Success, emptySlot)

/-- The process-wide state (psa_global_data_t): the slot array and the
ready bit (key_slots_initialized in the C). -/
structure psa_global_data_t where
  key_slots : List psa_key_slot_t
  key_slots_ready : Bool
deriving DecidableEq, Repr

/-- psa_validate_key_id, translated from the C: user range always
accepted; vendor range accepted strictly below VOLATILE_MIN and only
with vendor_ok; volatile range accepted only with volatile_ok; anything
else is InvalidHandle. n is the slot count fixing VOLATILE_MIN. -/
def psa_validate_key_id (n : Nat) (key : mbedtls_svc_key_id_t)
    (vendor_ok volatile_ok : Bool) : Status :=
  let key_id := MBEDTLS_SVC_KEY_ID_GET_KEY_ID key
  if PSA_KEY_ID_USER_MIN ≤ key_id ∧ key_id ≤ PSA_KEY_ID_USER_MAX then
    Status.Success
  else if vendor_ok = true ∧ PSA_KEY_ID_VENDOR_MIN ≤ key_id ∧
      key_id < PSA_KEY_ID_VOLATILE_MIN n then
    Status.Success
  else if volatile_ok = true ∧ PSA_KEY_ID_VOLATILE_MIN n ≤ key_id ∧
      key_id ≤ PSA_KEY_ID_VOLATILE_MAX then
    Status.Success
  else
    Status.InvalidHandle

/-- The descending scan of the non-volatile branch of
psa_search_key_in_slots: the C walks the pointer from one past the last
slot down to the first and stops at the first identifier match, so the
match with the highest index wins. Returns the matching index. -/
def searchScan (key : mbedtls_svc_key_id_t) (slots : List psa_key_slot_t) :
    Nat → Option Nat
  | 0 => none
  | i + 1 =>
    if mbedtls_svc_key_id_equal key (slots.getD i emptySlot).attr.id then
      some i
    else
      searchScan key slots i

/-- psa_search_key_in_slots, translated from the C. Returns the status
and, on success, the index of the slot holding the key. Volatile
identifiers are looked up directly at index key_id - VOLATILE_MIN;
others by the descending table scan. -/
def psa_search_key_in_slots (gd : psa_global_data_t)
    (key : mbedtls_svc_key_id_t) : Status × Option Nat :=
  let n := gd.key_slots.length
  let key_id := MBEDTLS_SVC_KEY_ID_GET_KEY_ID key
  let status := psa_validate_key_id n key true true
  if status ≠ Status.Success then
    (status, none)
  else if psa_key_id_is_volatile n key_id then
    let idx := key_id - PSA_KEY_ID_VOLATILE_MIN n
    if mbedtls_svc_key_id_equal key (gd.key_slots.getD idx emptySlot).attr.id then
      (Status.Success, some idx)
    else
      (Status.DoesNotExist, none)
  else
    match searchScan key gd.key_slots n with
    | some i => (Status.Success, some i)
    | none => (Status.DoesNotExist, none)

/-- psa_wipe_all_key_slots, translated from the C: wipe every slot and
clear the ready bit. -/
def psa_wipe_all_key_slots (gd : psa_global_data_t) : psa_global_data_t :=
  { key_slots := gd.key_slots.map (fun slot => (psa_wipe_key_slot slot).2),
    key_slots_ready := false }

/-- The descending scan of psa_get_empty_key_slot: the C iterates
slot_idx from the count down to 1 and takes the first unoccupied slot
encountered, so the unoccupied slot with the highest index wins. -/
def emptyScan (slots : List psa_key_slot_t) : Nat → Option Nat
  | 0 => none
  | i + 1 =>
    if psa_is_key_slot_occupied (slots.getD i emptySlot) then
      emptyScan slots i
    else
      some i

/-- psa_get_empty_key_slot, translated from the C. Returns the status,
the (unchanged) state, and on success the fresh volatile identifier
VOLATILE_MIN + index together with the index of an unoccupied slot. -/
def psa_get_empty_key_slot (gd : psa_global_data_t) :
    Status × psa_global_data_t × Option (Nat × Nat) :=
  if gd.key_slots_ready = false then
    (Status.BadState, gd, none)
  else
    match emptyScan gd.key_slots gd.key_slots.length with
    | some i =>
      (Status.Success, gd,
        some (PSA_KEY_ID_VOLATILE_MIN gd.key_slots.length + i, i))
    | none => (Status.InsufficientMemory, gd, none)

/-- Size in bytes of the fixed-size secure-element reference record
(sizeof(psa_se_key_data_storage_t)). Modelled from the spec: for an
external lifetime the payload must be exactly this record. -/
def SE_KEY_DATA_SIZE : Nat := 8

/-- The storage-backend and key-material-copier collaborators consumed
by the loader (spec section 6): psa_load_persistent_key returns a status
and the raw bytes, psa_copy_key_material_into_slot returns a status and
the updated slot. -/
structure StorageBackend where
  load_persistent_key : psa_core_key_attributes_t → Status × List Nat
  copy_key_material_into_slot :
    psa_key_slot_t → List Nat → Status × psa_key_slot_t

/-- psa_load_persistent_key_into_slot, translated from the C: fetch the
raw data for the slot attributes from the backend; on an external
lifetime require exactly the reference record and copy only the
device-side reference into the slot; otherwise hand the bytes to the
key-material copier. The temporary buffer is freed on every path in the
C; the model has no buffer to free. -/
def psa_load_persistent_key_into_slot (b : StorageBackend)
    (slot : psa_key_slot_t) : Status × psa_key_slot_t :=
  let (status, key_data) := b.load_persistent_key slot.attr
  if status ≠ Status.Success then
    (status, slot)
  else if psa_key_lifetime_is_ext slot.attr.lifetime then
    if key_data.length ≠ SE_KEY_DATA_SIZE then
      (Status.StorageFailure, slot)
    else
      ({ slot with se_slot_number := key_data } |> (Status.Success, ·))
  else
    let (status2, slot2) := b.copy_key_material_into_slot slot key_data
    if status2 ≠ Status.Success then
      (status2, slot)
    else
      (Status.Success, slot2)

/-- The provisional slot written by psa_get_key_slot before the load:
the requested identifier with lifetime PSA_KEY_LIFETIME_PERSISTENT. -/
def provisionalSlot (key : mbedtls_svc_key_id_t) (slot : psa_key_slot_t) :
    psa_key_slot_t :=
  { slot with attr := { id := key, lifetime := PSA_KEY_LIFETIME_PERSISTENT } }

/-- psa_get_key_slot, translated from the C (storage backend compiled
in): search first; on any status other than DoesNotExist return it. On a
miss, allocate an empty slot, mark it persistent with the requested
identifier, invoke the loader, and on loader failure wipe the slot
before returning the error. Note the C performs no volatile-range check
before allocating. -/
def psa_get_key_slot (b : StorageBackend) (gd : psa_global_data_t)
    (key : mbedtls_svc_key_id_t) : Status × psa_global_data_t × Option Nat :=
  if gd.key_slots_ready = false then
    (Status.BadState, gd, none)
  else
    let (status, found) := psa_search_key_in_slots gd key
    if status ≠ Status.DoesNotExist then
      (status, gd, found)
    else
      match psa_get_empty_key_slot gd with
      | (st, gd1, r) =>
        if st ≠ Status.Success then
          (st, gd1, none)
        else
          match r with
          | none => (st, gd1, none)
          | some (_vid, idx) =>
            let slot1 := provisionalSlot key (gd1.key_slots.getD idx emptySlot)
            let (lst, slot2) := psa_load_persistent_key_into_slot b slot1
            if lst ≠ Status.Success then
              (lst,
                { gd1 with
                  key_slots := gd1.key_slots.set idx (psa_wipe_key_slot slot2).2 },
                some idx)
            else
              (Status.Success,
                { gd1 with key_slots := gd1.key_slots.set idx slot2 },
                some idx)

/-- psa_open_key, translated from the C (storage backend compiled in):
thin wrapper over psa_get_key_slot; on success the handle is the key
identifier, on failure the null handle. -/
def psa_open_key (b : StorageBackend) (gd : psa_global_data_t)
    (key : mbedtls_svc_key_id_t) :
    Status × psa_global_data_t × mbedtls_svc_key_id_t :=
  match psa_get_key_slot b gd key with
  | (status, gd1, _) =>
    if status ≠ Status.Success then
      (status, gd1, { key_id := 0, owner := 0 })
    else
      (Status.Success, gd1, key)

/-- psa_close_key, translated from the C: Success on a null handle;
otherwise return the search status unchanged on failure, and on a hit
wipe the located slot unconditionally. -/
def psa_close_key (gd : psa_global_data_t) (handle : mbedtls_svc_key_id_t) :
    Status × psa_global_data_t :=
  if psa_key_handle_is_null handle then
    (Status.Success, gd)
  else
    match psa_search_key_in_slots gd handle with
    | (status, r) =>
      if status ≠ Status.Success then
        (status, gd)
      else
        match r with
        | none => (status, gd)
        | some idx =>
          let (wst, wslot) := psa_wipe_key_slot (gd.key_slots.getD idx emptySlot)
          (wst, { gd with key_slots := gd.key_slots.set idx wslot })

/-- psa_purge_key, translated from the C: locate the slot; Success with
no wipe when its lifetime is PSA_KEY_LIFETIME_VOLATILE; otherwise wipe
it. No storage-backend call is made. -/
def psa_purge_key (gd : psa_global_data_t) (key : mbedtls_svc_key_id_t) :
    Status × psa_global_data_t :=
  match psa_search_key_in_slots gd key with
  | (status, r) =>
    if status ≠ Status.Success then
      (status, gd)
    else
      match r with
      | none => (status, gd)
      | some idx =>
        let slot := gd.key_slots.getD idx emptySlot
        if slot.attr.lifetime = PSA_KEY_LIFETIME_VOLATILE then
          (Status.Success, gd)
        else
          let (wst, wslot) := psa_wipe_key_slot slot
          (wst, { gd with key_slots := gd.key_slots.set idx wslot })

/-- mbedtls_psa_stats_t: the statistics record, zero-filled at entry by
memset in the C. -/
structure mbedtls_psa_stats_t where
  volatile_slots : Nat
  persistent_slots : Nat
  ext_slots : Nat
  empty_slots : Nat
  max_open_internal_key_id : Nat
  max_open_ext_key_id : Nat
deriving DecidableEq, Repr

/-- The zero statistics record. -/
def statsInit : mbedtls_psa_stats_t :=
  { volatile_slots := 0, persistent_slots := 0, ext_slots := 0,
    empty_slots := 0, max_open_internal_key_id := 0,
    max_open_ext_key_id := 0 }

/-- One iteration of the loop body of mbedtls_psa_get_stats, translated
from the C: unoccupied slots count as empty; occupied slots are
classified by lifetime equal to VOLATILE, equal to PERSISTENT, or
anything else (the external bucket), and for the latter two the running
maximum identifier is updated. -/
def statsStep (stats : mbedtls_psa_stats_t) (slot : psa_key_slot_t) :
    mbedtls_psa_stats_t :=
  if psa_is_key_slot_occupied slot = false then
    { stats with empty_slots := stats.empty_slots + 1 }
  else if slot.attr.lifetime = PSA_KEY_LIFETIME_VOLATILE then
    { stats with volatile_slots := stats.volatile_slots + 1 }
  else if slot.attr.lifetime = PSA_KEY_LIFETIME_PERSISTENT then
    let id := MBEDTLS_SVC_KEY_ID_GET_KEY_ID slot.attr.id
    { stats with
      persistent_slots := stats.persistent_slots + 1,
      max_open_internal_key_id :=
        if stats.max_open_internal_key_id < id then id
        else stats.max_open_internal_key_id }
  else
    let id := MBEDTLS_SVC_KEY_ID_GET_KEY_ID slot.attr.id
    { stats with
      ext_slots := stats.ext_slots + 1,
      max_open_ext_key_id :=
        if stats.max_open_ext_key_id < id then id
        else stats.max_open_ext_key_id }

/-- mbedtls_psa_get_stats, translated from the C: a single fold of the
loop body over the slots, starting from the zeroed record; the state is
returned unchanged because the loop only reads it. -/
def mbedtls_psa_get_stats (gd : psa_global_data_t) :
    mbedtls_psa_stats_t × psa_global_data_t :=
  (gd.key_slots.foldl statsStep statsInit, gd)

/-- Specification-side classifier: occupied slot with volatile
lifetime. -/
def occupiedVolatile (slot : psa_key_slot_t) : Bool :=
  psa_is_key_slot_occupied slot &&
    (slot.attr.lifetime == PSA_KEY_LIFETIME_VOLATILE)

/-- Specification-side classifier: occupied slot with persistent
lifetime. -/
def occupiedPersistent (slot : psa_key_slot_t) : Bool :=
  psa_is_key_slot_occupied slot &&
    (slot.attr.lifetime == PSA_KEY_LIFETIME_PERSISTENT)

/-- Specification-side classifier: occupied slot whose lifetime is
neither volatile nor persistent (the external bucket of the stats
loop). -/
def occupiedOther (slot : psa_key_slot_t) : Bool :=
  psa_is_key_slot_occupied slot &&
    !(slot.attr.lifetime == PSA_KEY_LIFETIME_VOLATILE) &&
    !(slot.attr.lifetime == PSA_KEY_LIFETIME_PERSISTENT)

/-- Specification-side well-formedness of a table state: every
unoccupied slot is the all-zero empty slot, as guaranteed by startup
zeroing and by every wipe. -/
def WellFormedSlots (gd : psa_global_data_t) : Prop :=
  ∀ slot ∈ gd.key_slots, psa_is_key_slot_occupied slot = false →
    slot = emptySlot

/-- Concrete state: a ready table of two empty slots. -/
def tableTwoEmpty : psa_global_data_t :=
  { key_slots := [emptySlot, emptySlot], key_slots_ready := true }

/-- Concrete state: a ready table of one empty slot. -/
def tableOneEmpty : psa_global_data_t :=
  { key_slots := [emptySlot], key_slots_ready := true }

/-- Concrete identifier: the first volatile identifier of a two-slot
table (0x7ffffffe). -/
def keyVolatileTwo : mbedtls_svc_key_id_t :=
  { key_id := 0x7ffffffe, owner := 0 }

/-- Concrete backend whose load always fails with StorageFailure and
whose copier succeeds. -/
def backendStorageFail : StorageBackend :=
  { load_persistent_key := fun _ => (Status.StorageFailure, []),
    copy_key_material_into_slot :=
      fun slot data => (Status.Success, { slot with material := data }) }

/-- Concrete occupied volatile slot number i of a four-slot table. -/
def volSlotFour (i : Nat) : psa_key_slot_t :=
  { attr := { id := { key_id := PSA_KEY_ID_VOLATILE_MIN 4 + i, owner := 0 },
              lifetime := PSA_KEY_LIFETIME_VOLATILE },
    material := [1], se_slot_number := [] }

/-- Concrete occupied persistent slot with identifier 50. -/
def persSlotFifty : psa_key_slot_t :=
  { attr := { id := { key_id := 50, owner := 0 },
              lifetime := PSA_KEY_LIFETIME_PERSISTENT },
    material := [2], se_slot_number := [] }

/-- Concrete state for the statistics scenario: two volatile slots, one
persistent slot with identifier 50, one empty slot. -/
def tableStatsExample : psa_global_data_t :=
  { key_slots := [volSlotFour 0, volSlotFour 1, persSlotFifty, emptySlot],
    key_slots_ready := true }

/-- Concrete state: a table that is not marked ready. -/
def tableNotReady : psa_global_data_t :=
  { key_slots := [emptySlot], key_slots_ready := false }

/-- Concrete state: a ready table whose single slot is occupied. -/
def tableFullOne : psa_global_data_t :=
  { key_slots := [persSlotFifty], key_slots_ready := true }

/-! ## Helper lemmas -/

theorem getD_set_of_ne {α : Type} {l : List α} {i j : Nat} (h : i ≠ j)
    (a d : α) : (l.set i a).getD j d = l.getD j d := by
  simp [List.getD_eq_getElem?_getD, List.getElem?_set_ne h]

theorem getD_set_self {α : Type} {l : List α} {i : Nat} (h : i < l.length)
    (a d : α) : (l.set i a).getD i d = a := by
  simp [List.getD_eq_getElem?_getD, List.getElem?_set_self h]

theorem getD_set_cases {α : Type} (l : List α) (i j : Nat) (a d : α) :
    (l.set i a).getD j d = l.getD j d ∨ (l.set i a).getD j d = a := by
  by_cases h : i = j
  · subst h
    by_cases hl : i < l.length
    · right; exact getD_set_self hl a d
    · left; rw [List.set_eq_of_length_le (Nat.le_of_not_lt hl)]
  · left; exact getD_set_of_ne h a d

theorem set_of_getD_eq {α : Type} {l : List α} {i : Nat} {a d : α}
    (hi : i < l.length) (h : l.getD i d = a) : l.set i a = l := by
  apply List.ext_getElem?
  intro j
  by_cases hij : i = j
  · subst hij
    rw [List.getElem?_set_self hi, List.getElem?_eq_getElem hi]
    rw [List.getD_eq_getElem l d hi] at h
    rw [h]
  · rw [List.getElem?_set_ne hij]

theorem searchScan_eq_none_iff (key : mbedtls_svc_key_id_t)
    (slots : List psa_key_slot_t) (m : Nat) :
    searchScan key slots m = none ↔
      ∀ i < m,
        mbedtls_svc_key_id_equal key ((slots.getD i emptySlot).attr.id) =
          false := by
  induction m with
  | zero => simp [searchScan]
  | succ m ih =>
    simp only [searchScan]
    split
    · next hm =>
      constructor
      · intro h
        cases h
      · intro h
        have h2 := h m (Nat.lt_succ_self m)
        rw [h2] at hm
        cases hm
    · next hm =>
      rw [ih]
      constructor
      · intro h i hi
        rcases Nat.lt_succ_iff_lt_or_eq.mp hi with h1 | h1
        · exact h i h1
        · subst h1
          exact Bool.not_eq_true _ ▸ (by simpa using hm)
      · intro h i hi
        exact h i (Nat.lt_succ_of_lt hi)

theorem searchScan_eq_some (key : mbedtls_svc_key_id_t)
    (slots : List psa_key_slot_t) (m i : Nat)
    (h : searchScan key slots m = some i) :
    i < m ∧
      mbedtls_svc_key_id_equal key ((slots.getD i emptySlot).attr.id) =
        true := by
  induction m with
  | zero => simp [searchScan] at h
  | succ m ih =>
    simp only [searchScan] at h
    split at h
    · next hc =>
      cases h
      exact ⟨Nat.lt_succ_self _, hc⟩
    · next hc =>
      rcases ih h with ⟨h1, h2⟩
      exact ⟨Nat.lt_succ_of_lt h1, h2⟩

theorem emptyScan_eq_none_iff (slots : List psa_key_slot_t) (m : Nat) :
    emptyScan slots m = none ↔
      ∀ i < m, psa_is_key_slot_occupied (slots.getD i emptySlot) = true := by
  induction m with
  | zero => simp [emptyScan]
  | succ m ih =>
    simp only [emptyScan]
    split
    · next hm =>
      rw [ih]
      constructor
      · intro h i hi
        rcases Nat.lt_succ_iff_lt_or_eq.mp hi with h1 | h1
        · exact h i h1
        · subst h1; exact hm
      · intro h i hi
        exact h i (Nat.lt_succ_of_lt hi)
    · next hm =>
      constructor
      · intro h
        cases h
      · intro h
        have h2 := h m (Nat.lt_succ_self m)
        exact absurd h2 hm

theorem emptyScan_eq_some (slots : List psa_key_slot_t) (m i : Nat)
    (h : emptyScan slots m = some i) :
    i < m ∧ psa_is_key_slot_occupied (slots.getD i emptySlot) = false := by
  induction m with
  | zero => simp [emptyScan] at h
  | succ m ih =>
    simp only [emptyScan] at h
    split at h
    · next hc =>
      rcases ih h with ⟨h1, h2⟩
      exact ⟨Nat.lt_succ_of_lt h1, h2⟩
    · next hc =>
      cases h
      exact ⟨Nat.lt_succ_self _, by simpa using hc⟩

theorem validate_success_pos {n : Nat} {key : mbedtls_svc_key_id_t}
    (h : psa_validate_key_id n key true true = Status.Success) :
    1 ≤ key.key_id := by
  simp only [psa_validate_key_id, MBEDTLS_SVC_KEY_ID_GET_KEY_ID,
    PSA_KEY_ID_USER_MIN, PSA_KEY_ID_USER_MAX, PSA_KEY_ID_VENDOR_MIN,
    PSA_KEY_ID_VENDOR_MAX, PSA_KEY_ID_VOLATILE_MIN,
    PSA_KEY_ID_VOLATILE_MAX, true_and] at h
  split_ifs at h with h1 h2 h3 <;> omega

/-! ## Claim theorems -/

/-- Claim C4: psa_validate_key_id accepts every user-range identifier
unconditionally, accepts identifiers of the vendor range (which the
check bounds strictly below the volatile floor) exactly when vendor_ok
is set, accepts volatile-range identifiers exactly when volatile_ok is
set, and for every identifier outside all permitted ranges returns
InvalidHandle regardless of the flags. Stated for any slot count
between 1 and 2^30. -/
theorem validate_key_id_ranges (n : Nat) (key : mbedtls_svc_key_id_t)
    (vendor_ok volatile_ok : Bool) (hn1 : 1 ≤ n) (hn2 : n ≤ 1073741824) :
    (PSA_KEY_ID_USER_MIN ≤ key.key_id ∧ key.key_id ≤ PSA_KEY_ID_USER_MAX →
      psa_validate_key_id n key vendor_ok volatile_ok = Status.Success) ∧
    (PSA_KEY_ID_VENDOR_MIN ≤ key.key_id ∧
        key.key_id < PSA_KEY_ID_VOLATILE_MIN n →
      psa_validate_key_id n key vendor_ok volatile_ok =
        if vendor_ok then Status.Success else Status.InvalidHandle) ∧
    (PSA_KEY_ID_VOLATILE_MIN n ≤ key.key_id ∧
        key.key_id ≤ PSA_KEY_ID_VOLATILE_MAX →
      psa_validate_key_id n key vendor_ok volatile_ok =
        if volatile_ok then Status.Success else Status.InvalidHandle) ∧
    (key.key_id < PSA_KEY_ID_USER_MIN ∨ PSA_KEY_ID_VOLATILE_MAX < key.key_id →
      psa_validate_key_id n key vendor_ok volatile_ok =
        Status.InvalidHandle) := by
  simp only [psa_validate_key_id, MBEDTLS_SVC_KEY_ID_GET_KEY_ID,
    PSA_KEY_ID_USER_MIN, PSA_KEY_ID_USER_MAX, PSA_KEY_ID_VENDOR_MIN,
    PSA_KEY_ID_VENDOR_MAX, PSA_KEY_ID_VOLATILE_MIN, PSA_KEY_ID_VOLATILE_MAX]
  refine ⟨?_, ?_, ?_, ?_⟩ <;> intro h <;>
    cases vendor_ok <;> cases volatile_ok <;>
    split_ifs with h1 h2 h3 <;> simp_all <;> omega

/-- Claim C4 witness: concrete instances of each range at slot count
32. -/
theorem validate_key_id_ranges_witness :
    psa_validate_key_id 32 { key_id := 5, owner := 0 } false false =
      Status.Success ∧
    psa_validate_key_id 32 { key_id := 0x40000000, owner := 3 } false true =
      Status.InvalidHandle ∧
    psa_validate_key_id 32 { key_id := 0x7fffffff, owner := 0 } true true =
      Status.Success ∧
    psa_validate_key_id 32 { key_id := 0, owner := 7 } true true =
      Status.InvalidHandle := by
  refine ⟨?_, ?_, ?_, ?_⟩
  · exact (validate_key_id_ranges 32 { key_id := 5, owner := 0 } false false
      (by decide) (by decide)).1 (by decide)
  · have h := (validate_key_id_ranges 32 { key_id := 0x40000000, owner := 3 }
      false true (by decide) (by decide)).2.1 (by decide)
    simpa using h
  · have h := (validate_key_id_ranges 32 { key_id := 0x7fffffff, owner := 0 }
      true true (by decide) (by decide)).2.2.1 (by decide)
    simpa using h
  · exact (validate_key_id_ranges 32 { key_id := 0, owner := 7 } true true
      (by decide) (by decide)).2.2.2 (by decide)

/-- Claim C10: the vendor-range acceptance stops strictly below the
volatile range: for every volatile-range identifier the verdict of
psa_validate_key_id is decided solely by volatile_ok, whatever
vendor_ok is; in particular vendor_ok set and volatile_ok clear yields
InvalidHandle. -/
theorem validate_volatile_gated_by_flag (n : Nat)
    (key : mbedtls_svc_key_id_t) (vendor_ok volatile_ok : Bool)
    (hn1 : 1 ≤ n) (hn2 : n ≤ 1073741824)
    (h1 : PSA_KEY_ID_VOLATILE_MIN n ≤ key.key_id)
    (h2 : key.key_id ≤ PSA_KEY_ID_VOLATILE_MAX) :
    psa_validate_key_id n key vendor_ok volatile_ok =
      if volatile_ok then Status.Success else Status.InvalidHandle := by
  simp only [psa_validate_key_id, MBEDTLS_SVC_KEY_ID_GET_KEY_ID,
    PSA_KEY_ID_USER_MIN, PSA_KEY_ID_USER_MAX, PSA_KEY_ID_VENDOR_MIN,
    PSA_KEY_ID_VENDOR_MAX, PSA_KEY_ID_VOLATILE_MIN,
    PSA_KEY_ID_VOLATILE_MAX] at h1 h2 ⊢
  cases vendor_ok <;> cases volatile_ok <;>
    split_ifs with ha hb hc <;> simp_all <;> omega

/-- Claim C10 witness: the first volatile identifier of a 32-slot table
is rejected with vendor_ok set and volatile_ok clear. -/
theorem validate_volatile_gated_by_flag_witness :
    psa_validate_key_id 32 { key_id := 0x7fffffe0, owner := 0 } true false =
      Status.InvalidHandle := by
  have h := validate_volatile_gated_by_flag 32
    { key_id := 0x7fffffe0, owner := 0 } true false (by decide) (by decide)
    (by decide) (by decide)
  simpa using h

/-- Claim C7: psa_purge_key on a resident key whose slot lifetime is
volatile returns Success and leaves the whole table (hence that slot:
identifier, lifetime and material) unchanged; on a resident key of any
other lifetime (persistent or external) it wipes the slot to empty. The
embedding of psa_purge_key takes no storage backend: no storage call is
made. -/
theorem purge_key_lifetime_cases (gd : psa_global_data_t)
    (key : mbedtls_svc_key_id_t) (idx : Nat)
    (h : psa_search_key_in_slots gd key = (Status.Success, some idx)) :
    ((gd.key_slots.getD idx emptySlot).attr.lifetime =
        PSA_KEY_LIFETIME_VOLATILE →
      psa_purge_key gd key = (Status.Success, gd)) ∧
    ((gd.key_slots.getD idx emptySlot).attr.lifetime ≠
        PSA_KEY_LIFETIME_VOLATILE →
      psa_purge_key gd key =
        (Status.Success,
          { gd with key_slots := gd.key_slots.set idx emptySlot })) := by
  constructor <;> intro hl <;>
    (simp only [List.getD_eq_getElem?_getD] at hl) <;>
    simp [psa_purge_key, h, hl, psa_wipe_key_slot]

/-- Claim C7 witness: in the four-slot example table, purging the
resident volatile key leaves the state unchanged, and purging the
resident persistent key 50 wipes its slot. -/
theorem purge_key_lifetime_cases_witness :
    psa_purge_key tableStatsExample { key_id := 0x7ffffffc, owner := 0 } =
      (Status.Success, tableStatsExample) ∧
    psa_purge_key tableStatsExample { key_id := 50, owner := 0 } =
      (Status.Success,
        { tableStatsExample with
          key_slots := tableStatsExample.key_slots.set 2 emptySlot }) := by
  constructor
  · exact (purge_key_lifetime_cases tableStatsExample
      { key_id := 0x7ffffffc, owner := 0 } 0 (by decide)).1 (by decide)
  · exact (purge_key_lifetime_cases tableStatsExample
      { key_id := 50, owner := 0 } 2 (by decide)).2 (by decide)

/-- Claim C9: psa_get_empty_key_slot does not modify the slot table:
the returned state equals the input state, a second call on the
returned state yields the very same result, and a successful call
returns the index of a slot that is still unoccupied (not reserved). -/
theorem get_empty_key_slot_read_only (gd : psa_global_data_t) :
    (psa_get_empty_key_slot gd).2.1 = gd ∧
    psa_get_empty_key_slot (psa_get_empty_key_slot gd).2.1 =
      psa_get_empty_key_slot gd ∧
    (∀ vid idx, (psa_get_empty_key_slot gd).2.2 = some (vid, idx) →
      psa_is_key_slot_occupied
        ((psa_get_empty_key_slot gd).2.1.key_slots.getD idx emptySlot) =
          false) := by
  have hstate : (psa_get_empty_key_slot gd).2.1 = gd := by
    unfold psa_get_empty_key_slot
    split
    · rfl
    · split <;> rfl
  refine ⟨hstate, by rw [hstate], ?_⟩
  intro vid idx h
  rw [hstate]
  unfold psa_get_empty_key_slot at h
  split at h
  · cases h
  · split at h
    · next i heq =>
      simp only [Option.some.injEq, Prod.mk.injEq] at h
      rcases h with ⟨hvid, hidx⟩
      subst hidx
      exact (emptyScan_eq_some _ _ _ heq).2
    · cases h

/-- Claim C9 witness: on the four-slot example table the allocator
picks slot 3, which is indeed still unoccupied afterwards. -/
theorem get_empty_key_slot_read_only_witness :
    psa_is_key_slot_occupied
      ((psa_get_empty_key_slot tableStatsExample).2.1.key_slots.getD 3
        emptySlot) = false := by
  exact (get_empty_key_slot_read_only tableStatsExample).2.2
    (PSA_KEY_ID_VOLATILE_MIN 4 + 3) 3 (by decide)

/-- Claim C3 counterexample: a non-null handle whose identifier is not
resident (its slot no longer stores that identifier) makes
psa_close_key return DoesNotExist, not Success: the C returns the
search status unchanged on any search failure. -/
theorem close_key_not_resident_counterexample :
    psa_key_handle_is_null { key_id := 7, owner := 0 } = false ∧
    (psa_search_key_in_slots tableOneEmpty { key_id := 7, owner := 0 }).1 =
      Status.DoesNotExist ∧
    psa_close_key tableOneEmpty { key_id := 7, owner := 0 } =
      (Status.DoesNotExist, tableOneEmpty) := by
  decide

/-- Claim C3 as amended: psa_close_key on a null handle returns Success
and leaves the table unchanged; on a non-null handle whose identifier
is not resident it returns the search failure status (DoesNotExist for
an already-closed handle) and leaves the table unchanged; on a handle
whose slot is resident it wipes that slot unconditionally, regardless
of lifetime kind. -/
theorem close_key_spec (gd : psa_global_data_t)
    (handle : mbedtls_svc_key_id_t) :
    (psa_key_handle_is_null handle = true →
      psa_close_key gd handle = (Status.Success, gd)) ∧
    (psa_key_handle_is_null handle = false →
      ((psa_search_key_in_slots gd handle).1 ≠ Status.Success →
        psa_close_key gd handle =
          ((psa_search_key_in_slots gd handle).1, gd)) ∧
      (∀ idx,
        psa_search_key_in_slots gd handle = (Status.Success, some idx) →
        psa_close_key gd handle =
          (Status.Success,
            { gd with key_slots := gd.key_slots.set idx emptySlot }))) := by
  refine ⟨?_, ?_⟩
  · intro hnull
    simp [psa_close_key, hnull]
  · intro hnull
    constructor
    · intro hst
      rcases hs : psa_search_key_in_slots gd handle with ⟨st, r⟩
      rw [hs] at hst
      simp only at hst
      simp [psa_close_key, hnull, hs, hst]
    · intro idx hs
      simp [psa_close_key, hnull, hs, psa_wipe_key_slot]

/-- Claim C3 witness: closing the null handle leaves the one-slot table
unchanged with Success, and closing the resident persistent key 50 of
the four-slot example wipes its slot. -/
theorem close_key_spec_witness :
    psa_close_key tableOneEmpty { key_id := 0, owner := 0 } =
      (Status.Success, tableOneEmpty) ∧
    psa_close_key tableStatsExample { key_id := 50, owner := 0 } =
      (Status.Success,
        { tableStatsExample with
          key_slots := tableStatsExample.key_slots.set 2 emptySlot }) := by
  constructor
  · exact (close_key_spec tableOneEmpty { key_id := 0, owner := 0 }).1
      (by decide)
  · exact ((close_key_spec tableStatsExample
      { key_id := 50, owner := 0 }).2 (by decide)).2 2 (by decide)

/-- Claim C6: psa_get_empty_key_slot fails BadState when the table is
not marked ready; otherwise, if some slot is unoccupied it returns an
unoccupied slot index together with the volatile identifier
VOLATILE_MIN + index, whose direct-addressing difference recovers the
index (so distinct slots always receive distinct volatile identifiers);
if every slot is occupied it fails InsufficientMemory. -/
theorem get_empty_key_slot_spec (gd : psa_global_data_t) :
    (gd.key_slots_ready = false →
      psa_get_empty_key_slot gd = (Status.BadState, gd, none)) ∧
    (gd.key_slots_ready = true →
      (∃ slot ∈ gd.key_slots, psa_is_key_slot_occupied slot = false) →
      ∃ idx, idx < gd.key_slots.length ∧
        psa_is_key_slot_occupied (gd.key_slots.getD idx emptySlot) = false ∧
        psa_get_empty_key_slot gd =
          (Status.Success, gd,
            some (PSA_KEY_ID_VOLATILE_MIN gd.key_slots.length + idx, idx)) ∧
        PSA_KEY_ID_VOLATILE_MIN gd.key_slots.length + idx -
            PSA_KEY_ID_VOLATILE_MIN gd.key_slots.length = idx) ∧
    (gd.key_slots_ready = true →
      (∀ slot ∈ gd.key_slots, psa_is_key_slot_occupied slot = true) →
      psa_get_empty_key_slot gd = (Status.InsufficientMemory, gd, none)) := by
  refine ⟨?_, ?_, ?_⟩
  · intro h
    simp [psa_get_empty_key_slot, h]
  · intro h hex
    rcases hscan : emptyScan gd.key_slots gd.key_slots.length with _ | i
    · exfalso
      rw [emptyScan_eq_none_iff] at hscan
      rcases hex with ⟨slot, hmem, hocc⟩
      rcases List.mem_iff_getElem.mp hmem with ⟨j, hj, hjeq⟩
      have h2 := hscan j hj
      rw [List.getD_eq_getElem _ _ hj, hjeq, hocc] at h2
      cases h2
    · rcases emptyScan_eq_some _ _ _ hscan with ⟨hlt, hunocc⟩
      refine ⟨i, hlt, hunocc, ?_, by omega⟩
      simp [psa_get_empty_key_slot, h, hscan]
  · intro h hall
    have hnone : emptyScan gd.key_slots gd.key_slots.length = none := by
      rw [emptyScan_eq_none_iff]
      intro i hi
      rw [List.getD_eq_getElem _ _ hi]
      exact hall _ (List.getElem_mem hi)
    simp [psa_get_empty_key_slot, h, hnone]

/-- Claim C6 witness: a not-ready table yields BadState, a fully
occupied table yields InsufficientMemory, and allocation on the
four-slot example table (which has an empty slot) succeeds. -/
theorem get_empty_key_slot_spec_witness :
    psa_get_empty_key_slot tableNotReady =
      (Status.BadState, tableNotReady, none) ∧
    psa_get_empty_key_slot tableFullOne =
      (Status.InsufficientMemory, tableFullOne, none) ∧
    (psa_get_empty_key_slot tableStatsExample).1 = Status.Success := by
  refine ⟨?_, ?_, ?_⟩
  · exact (get_empty_key_slot_spec tableNotReady).1 (by decide)
  · exact (get_empty_key_slot_spec tableFullOne).2.2 rfl (by decide)
  · obtain ⟨idx, h1, h2, h3, h4⟩ :=
      (get_empty_key_slot_spec tableStatsExample).2.1 rfl
        ⟨emptySlot, by decide, by decide⟩
    rw [h3]

/-- psa_wipe_all_key_slots preserves the table length. -/
theorem wipe_all_length (gd : psa_global_data_t) :
    (psa_wipe_all_key_slots gd).key_slots.length = gd.key_slots.length := by
  simp [psa_wipe_all_key_slots]

/-- Every slot read from a fully wiped table is the empty slot. -/
theorem wipe_all_getD (gd : psa_global_data_t) (i : Nat) :
    (psa_wipe_all_key_slots gd).key_slots.getD i emptySlot = emptySlot := by
  by_cases h : i < gd.key_slots.length
  · have hlen : i < (psa_wipe_all_key_slots gd).key_slots.length := by
      simpa [psa_wipe_all_key_slots] using h
    rw [List.getD_eq_getElem _ _ hlen]
    simp [psa_wipe_all_key_slots, psa_wipe_key_slot]
  · rw [List.getD_eq_default]
    rw [wipe_all_length]
    exact Nat.le_of_not_lt h

/-- With both flags permissive, a volatile-range identifier always
passes validation. -/
theorem validate_volatile_true_true (n v owner : Nat)
    (hv1 : PSA_KEY_ID_VOLATILE_MIN n ≤ v)
    (hv2 : v ≤ PSA_KEY_ID_VOLATILE_MAX) :
    psa_validate_key_id n { key_id := v, owner := owner } true true =
      Status.Success := by
  simp only [psa_validate_key_id, MBEDTLS_SVC_KEY_ID_GET_KEY_ID,
    PSA_KEY_ID_USER_MIN, PSA_KEY_ID_USER_MAX, PSA_KEY_ID_VENDOR_MIN,
    PSA_KEY_ID_VENDOR_MAX, PSA_KEY_ID_VOLATILE_MIN,
    PSA_KEY_ID_VOLATILE_MAX, true_and] at hv1 hv2 ⊢
  split_ifs <;> first | rfl | omega

/-- Claim C5: for a volatile identifier v, the search is a direct
indexed lookup: it returns Success with index v - VOLATILE_MIN exactly
when the slot at that index currently stores the requested identifier,
returns DoesNotExist otherwise, and after psa_wipe_all_key_slots the
search for any volatile identifier returns DoesNotExist. -/
theorem search_volatile_direct_index (gd : psa_global_data_t)
    (v owner : Nat)
    (hv1 : PSA_KEY_ID_VOLATILE_MIN gd.key_slots.length ≤ v)
    (hv2 : v ≤ PSA_KEY_ID_VOLATILE_MAX) :
    (psa_search_key_in_slots gd { key_id := v, owner := owner } =
        (Status.Success,
          some (v - PSA_KEY_ID_VOLATILE_MIN gd.key_slots.length)) ↔
      ({ key_id := v, owner := owner } : mbedtls_svc_key_id_t) =
        (gd.key_slots.getD (v - PSA_KEY_ID_VOLATILE_MIN gd.key_slots.length)
          emptySlot).attr.id) ∧
    (({ key_id := v, owner := owner } : mbedtls_svc_key_id_t) ≠
        (gd.key_slots.getD (v - PSA_KEY_ID_VOLATILE_MIN gd.key_slots.length)
          emptySlot).attr.id →
      psa_search_key_in_slots gd { key_id := v, owner := owner } =
        (Status.DoesNotExist, none)) ∧
    psa_search_key_in_slots (psa_wipe_all_key_slots gd)
        { key_id := v, owner := owner } = (Status.DoesNotExist, none) := by
  have hval := validate_volatile_true_true gd.key_slots.length v owner hv1 hv2
  have hvol : psa_key_id_is_volatile gd.key_slots.length v = true := by
    simp only [psa_key_id_is_volatile, Bool.and_eq_true, decide_eq_true_eq]
    exact ⟨hv1, hv2⟩
  have hsearch : psa_search_key_in_slots gd { key_id := v, owner := owner } =
      if ({ key_id := v, owner := owner } : mbedtls_svc_key_id_t) =
          (gd.key_slots.getD
            (v - PSA_KEY_ID_VOLATILE_MIN gd.key_slots.length)
            emptySlot).attr.id
      then (Status.Success,
            some (v - PSA_KEY_ID_VOLATILE_MIN gd.key_slots.length))
      else (Status.DoesNotExist, none) := by
    simp [psa_search_key_in_slots, MBEDTLS_SVC_KEY_ID_GET_KEY_ID, hval, hvol,
      mbedtls_svc_key_id_equal, beq_iff_eq]
  refine ⟨?_, ?_, ?_⟩
  · constructor
    · intro h
      by_contra hne
      rw [hsearch, if_neg hne] at h
      simp at h
    · intro h
      rw [hsearch, if_pos h]
  · intro hne
    rw [hsearch, if_neg hne]
  · have hkeyne :
        ¬ (({ key_id := v, owner := owner } : mbedtls_svc_key_id_t) =
          emptySlot.attr.id) := by
      simp only [emptySlot, mbedtls_svc_key_id_t.mk.injEq]
      intro hc
      simp only [psa_key_id_is_volatile, PSA_KEY_ID_VOLATILE_MIN,
        PSA_KEY_ID_VOLATILE_MAX, PSA_KEY_ID_VENDOR_MAX] at hv1
      omega
    have hvalw : psa_validate_key_id
        (psa_wipe_all_key_slots gd).key_slots.length
        { key_id := v, owner := owner } true true = Status.Success := by
      rw [wipe_all_length]; exact hval
    have hvolw : psa_key_id_is_volatile
        (psa_wipe_all_key_slots gd).key_slots.length v = true := by
      rw [wipe_all_length]; exact hvol
    simp only [psa_search_key_in_slots, MBEDTLS_SVC_KEY_ID_GET_KEY_ID, hvalw,
      hvolw, mbedtls_svc_key_id_equal, beq_iff_eq, ne_eq, not_true_eq_false,
      Bool.false_eq_true, if_false, if_true, ite_eq_right_iff]
    rw [wipe_all_getD]
    simp [hkeyne]

/-- Claim C5 witness: in the four-slot example table the resident
volatile identifier is found at its direct index, and is gone after a
full wipe. -/
theorem search_volatile_direct_index_witness :
    psa_search_key_in_slots tableStatsExample
      { key_id := 0x7ffffffd, owner := 0 } = (Status.Success, some 1) ∧
    psa_search_key_in_slots (psa_wipe_all_key_slots tableStatsExample)
      { key_id := 0x7ffffffd, owner := 0 } = (Status.DoesNotExist, none) := by
  constructor
  · have h := (search_volatile_direct_index tableStatsExample 0x7ffffffd 0
      (by decide) (by decide)).1.mpr (by decide)
    simpa using h
  · exact (search_volatile_direct_index tableStatsExample 0x7ffffffd 0
      (by decide) (by decide)).2.2

theorem validate_cases (n : Nat) (key : mbedtls_svc_key_id_t)
    (vendor_ok volatile_ok : Bool) :
    psa_validate_key_id n key vendor_ok volatile_ok = Status.Success ∨
    psa_validate_key_id n key vendor_ok volatile_ok =
      Status.InvalidHandle := by
  simp only [psa_validate_key_id]
  split_ifs <;> simp

theorem key_beq_empty_false {n : Nat} {key : mbedtls_svc_key_id_t}
    (h : psa_validate_key_id n key true true = Status.Success) :
    (key == emptySlot.attr.id) = false := by
  have hpos := validate_success_pos h
  apply beq_eq_false_iff_ne.mpr
  intro hc
  rw [hc] at hpos
  simp [emptySlot] at hpos

theorem search_eval_invalid (gd : psa_global_data_t)
    (key : mbedtls_svc_key_id_t)
    (h : psa_validate_key_id gd.key_slots.length key true true =
      Status.InvalidHandle) :
    psa_search_key_in_slots gd key = (Status.InvalidHandle, none) := by
  simp [psa_search_key_in_slots, MBEDTLS_SVC_KEY_ID_GET_KEY_ID, h]

theorem search_eval_vol (gd : psa_global_data_t)
    (key : mbedtls_svc_key_id_t)
    (hval : psa_validate_key_id gd.key_slots.length key true true =
      Status.Success)
    (hvol : psa_key_id_is_volatile gd.key_slots.length key.key_id = true) :
    psa_search_key_in_slots gd key =
      if mbedtls_svc_key_id_equal key
          ((gd.key_slots.getD
            (key.key_id - PSA_KEY_ID_VOLATILE_MIN gd.key_slots.length)
            emptySlot).attr.id)
      then (Status.Success,
        some (key.key_id - PSA_KEY_ID_VOLATILE_MIN gd.key_slots.length))
      else (Status.DoesNotExist, none) := by
  simp [psa_search_key_in_slots, MBEDTLS_SVC_KEY_ID_GET_KEY_ID, hval, hvol]

theorem search_eval_nonvol (gd : psa_global_data_t)
    (key : mbedtls_svc_key_id_t)
    (hval : psa_validate_key_id gd.key_slots.length key true true =
      Status.Success)
    (hvol : psa_key_id_is_volatile gd.key_slots.length key.key_id =
      false) :
    psa_search_key_in_slots gd key =
      match searchScan key gd.key_slots gd.key_slots.length with
      | some i => (Status.Success, some i)
      | none => (Status.DoesNotExist, none) := by
  simp [psa_search_key_in_slots, MBEDTLS_SVC_KEY_ID_GET_KEY_ID, hval, hvol]

theorem search_miss_after_set_empty (gd : psa_global_data_t)
    (key : mbedtls_svc_key_id_t) (idx : Nat)
    (hmiss : psa_search_key_in_slots gd key = (Status.DoesNotExist, none)) :
    psa_search_key_in_slots
      { gd with key_slots := gd.key_slots.set idx emptySlot } key =
      (Status.DoesNotExist, none) := by
  have hval : psa_validate_key_id gd.key_slots.length key true true =
      Status.Success := by
    rcases validate_cases gd.key_slots.length key true true with h | h
    · exact h
    · rw [search_eval_invalid gd key h] at hmiss
      simp at hmiss
  have hempty := key_beq_empty_false hval
  have hval2 : psa_validate_key_id
      ({ gd with key_slots := gd.key_slots.set idx emptySlot } :
        psa_global_data_t).key_slots.length key true true =
      Status.Success := by
    simpa using hval
  cases hvol : psa_key_id_is_volatile gd.key_slots.length key.key_id with
  | true =>
    have hvol2 : psa_key_id_is_volatile
        ({ gd with key_slots := gd.key_slots.set idx emptySlot } :
          psa_global_data_t).key_slots.length key.key_id = true := by
      simpa using hvol
    have hbe : mbedtls_svc_key_id_equal key
        ((gd.key_slots.getD
          (key.key_id - PSA_KEY_ID_VOLATILE_MIN gd.key_slots.length)
          emptySlot).attr.id) = false := by
      cases hbe2 : mbedtls_svc_key_id_equal key
          ((gd.key_slots.getD
            (key.key_id - PSA_KEY_ID_VOLATILE_MIN gd.key_slots.length)
            emptySlot).attr.id) with
      | false => rfl
      | true =>
        rw [search_eval_vol gd key hval hvol] at hmiss
        rw [hbe2] at hmiss
        simp at hmiss
    rw [search_eval_vol _ key hval2 hvol2]
    have hnew : mbedtls_svc_key_id_equal key
        ((({ gd with key_slots := gd.key_slots.set idx emptySlot } :
            psa_global_data_t).key_slots.getD
          (key.key_id - PSA_KEY_ID_VOLATILE_MIN
            ({ gd with key_slots := gd.key_slots.set idx emptySlot} :
              psa_global_data_t).key_slots.length)
          emptySlot).attr.id) = false := by
      simp only [List.length_set]
      rcases getD_set_cases gd.key_slots idx
        (key.key_id - PSA_KEY_ID_VOLATILE_MIN gd.key_slots.length)
        emptySlot emptySlot with hc | hc
      · rw [hc]
        exact hbe
      · rw [hc]
        exact hempty
    rw [hnew]
    simp
  | false =>
    have hvol2 : psa_key_id_is_volatile
        ({ gd with key_slots := gd.key_slots.set idx emptySlot } :
          psa_global_data_t).key_slots.length key.key_id = false := by
      simpa using hvol
    have hscan : searchScan key gd.key_slots gd.key_slots.length = none := by
      rcases h2 : searchScan key gd.key_slots gd.key_slots.length
        with _ | j
      · rfl
      · rw [search_eval_nonvol gd key hval hvol, h2] at hmiss
        simp at hmiss
    have hscan2 : searchScan key (gd.key_slots.set idx emptySlot)
        gd.key_slots.length = none := by
      rw [searchScan_eq_none_iff]
      intro i hi
      rcases getD_set_cases gd.key_slots idx i emptySlot emptySlot
        with hc | hc
      · rw [hc]
        exact (searchScan_eq_none_iff key gd.key_slots
          gd.key_slots.length).mp hscan i hi
      · rw [hc]
        exact hempty
    rw [search_eval_nonvol _ key hval2 hvol2]
    simp only [List.length_set]
    rw [hscan2]

theorem get_empty_some_inv (gd : psa_global_data_t) (vid idx : Nat)
    (h : psa_get_empty_key_slot gd = (Status.Success, gd, some (vid, idx))) :
    idx < gd.key_slots.length ∧
    psa_is_key_slot_occupied (gd.key_slots.getD idx emptySlot) = false := by
  unfold psa_get_empty_key_slot at h
  split at h
  · simp at h
  · split at h
    · next i heq =>
      have hidx : i = idx := by
        simp only [Prod.mk.injEq, Option.some.injEq] at h
        exact h.2.2.2
      subst hidx
      exact emptyScan_eq_some _ _ _ heq
    · simp at h

theorem get_key_slot_load_fail (b : StorageBackend)
    (gd : psa_global_data_t) (key : mbedtls_svc_key_id_t)
    (vid idx : Nat) (e : Status)
    (hinit : gd.key_slots_ready = true)
    (hmiss : psa_search_key_in_slots gd key = (Status.DoesNotExist, none))
    (halloc : psa_get_empty_key_slot gd =
      (Status.Success, gd, some (vid, idx)))
    (hload : (psa_load_persistent_key_into_slot b
      (provisionalSlot key (gd.key_slots.getD idx emptySlot))).1 = e)
    (herr : e ≠ Status.Success) :
    psa_get_key_slot b gd key =
      (e, { gd with key_slots := gd.key_slots.set idx emptySlot },
        some idx) := by
  rcases hl : psa_load_persistent_key_into_slot b
      (provisionalSlot key (gd.key_slots.getD idx emptySlot))
    with ⟨lst, slot2⟩
  rw [hl] at hload
  subst hload
  have herr2 : lst ≠ Status.Success := by simpa using herr
  simp only [List.getD_eq_getElem?_getD] at hl
  simp [psa_get_key_slot, hinit, hmiss, halloc, hl, herr2,
    psa_wipe_key_slot]

/-- Claim C2: when the persistent load invoked by psa_get_key_slot
fails with any error, the provisionally allocated slot is wiped back to
empty before the error is returned: the returned status is the loader
error, the table is unchanged whenever unoccupied slots are empty (as
startup and every wipe guarantee), and a subsequent search for the same
identifier returns DoesNotExist. -/
theorem get_key_slot_load_failure_rolls_back (b : StorageBackend)
    (gd : psa_global_data_t) (key : mbedtls_svc_key_id_t)
    (vid idx : Nat) (e : Status)
    (hinit : gd.key_slots_ready = true)
    (hmiss : psa_search_key_in_slots gd key = (Status.DoesNotExist, none))
    (halloc : psa_get_empty_key_slot gd =
      (Status.Success, gd, some (vid, idx)))
    (hload : (psa_load_persistent_key_into_slot b
      (provisionalSlot key (gd.key_slots.getD idx emptySlot))).1 = e)
    (herr : e ≠ Status.Success) :
    (psa_get_key_slot b gd key).1 = e ∧
    (WellFormedSlots gd → (psa_get_key_slot b gd key).2.1 = gd) ∧
    psa_search_key_in_slots (psa_get_key_slot b gd key).2.1 key =
      (Status.DoesNotExist, none) := by
  have hmain := get_key_slot_load_fail b gd key vid idx e hinit hmiss
    halloc hload herr
  rw [hmain]
  refine ⟨rfl, ?_, ?_⟩
  · intro hwf
    rcases get_empty_some_inv gd vid idx halloc with ⟨hlt, hunocc⟩
    have hslot : gd.key_slots.getD idx emptySlot = emptySlot := by
      apply hwf
      · rw [List.getD_eq_getElem _ _ hlt]
        exact List.getElem_mem hlt
      · exact hunocc
    show ({ gd with key_slots := gd.key_slots.set idx emptySlot } :
      psa_global_data_t) = gd
    rw [set_of_getD_eq hlt hslot]
  · exact search_miss_after_set_empty gd key idx hmiss

/-- Claim C2 witness: loading user key 7 through the failing backend
into the one-slot table surfaces StorageFailure, leaves the table
unchanged, and the key remains absent. -/
theorem get_key_slot_load_failure_rolls_back_witness :
    (psa_get_key_slot backendStorageFail tableOneEmpty
      { key_id := 7, owner := 0 }).1 = Status.StorageFailure ∧
    (psa_get_key_slot backendStorageFail tableOneEmpty
      { key_id := 7, owner := 0 }).2.1 = tableOneEmpty ∧
    psa_search_key_in_slots
      (psa_get_key_slot backendStorageFail tableOneEmpty
        { key_id := 7, owner := 0 }).2.1
      { key_id := 7, owner := 0 } = (Status.DoesNotExist, none) := by
  have h := get_key_slot_load_failure_rolls_back backendStorageFail
    tableOneEmpty { key_id := 7, owner := 0 }
    (PSA_KEY_ID_VOLATILE_MIN 1) 0 Status.StorageFailure
    (by decide) (by decide) (by decide) (by decide) (by decide)
  refine ⟨h.1, h.2.1 ?_, h.2.2⟩
  unfold WellFormedSlots
  intro slot hs hocc
  simp only [tableOneEmpty, List.mem_singleton] at hs
  subst hs
  rfl

/-- Claim C1 counterexample: for a volatile identifier that misses the
search, psa_get_key_slot does not return DoesNotExist without touching
the allocator and loader: with a backend whose load fails with
StorageFailure, the call returns StorageFailure, so allocation and a
load were attempted for a volatile identifier. -/
theorem get_key_slot_volatile_miss_counterexample :
    psa_key_id_is_volatile tableTwoEmpty.key_slots.length
      keyVolatileTwo.key_id = true ∧
    psa_search_key_in_slots tableTwoEmpty keyVolatileTwo =
      (Status.DoesNotExist, none) ∧
    (psa_get_key_slot backendStorageFail tableTwoEmpty keyVolatileTwo).1 =
      Status.StorageFailure := by
  decide

/-- Claim C1 as amended: after a search miss psa_get_key_slot proceeds
to allocation and the persistent loader regardless of whether the
identifier is in the volatile range (the C performs no volatile-range
check): for a volatile identifier, exactly as for any other, a loader
failure is surfaced to the caller and the provisional slot is wiped. -/
theorem get_key_slot_volatile_miss_allocates_and_loads
    (b : StorageBackend) (gd : psa_global_data_t)
    (key : mbedtls_svc_key_id_t) (vid idx : Nat) (e : Status)
    (hinit : gd.key_slots_ready = true)
    (hvolkey : psa_key_id_is_volatile gd.key_slots.length key.key_id =
      true)
    (hmiss : psa_search_key_in_slots gd key = (Status.DoesNotExist, none))
    (halloc : psa_get_empty_key_slot gd =
      (Status.Success, gd, some (vid, idx)))
    (hload : (psa_load_persistent_key_into_slot b
      (provisionalSlot key (gd.key_slots.getD idx emptySlot))).1 = e)
    (herr : e ≠ Status.Success) :
    psa_get_key_slot b gd key =
      (e, { gd with key_slots := gd.key_slots.set idx emptySlot },
        some idx) :=
  get_key_slot_load_fail b gd key vid idx e hinit hmiss halloc hload herr

/-- Claim C1 amended witness: the counterexample configuration run
through the amended theorem. -/
theorem get_key_slot_volatile_miss_allocates_and_loads_witness :
    psa_get_key_slot backendStorageFail tableTwoEmpty keyVolatileTwo =
      (Status.StorageFailure,
        { tableTwoEmpty with
          key_slots := tableTwoEmpty.key_slots.set 1 emptySlot },
        some 1) := by
  exact get_key_slot_volatile_miss_allocates_and_loads backendStorageFail
    tableTwoEmpty keyVolatileTwo (PSA_KEY_ID_VOLATILE_MIN 2 + 1) 1
    Status.StorageFailure (by decide) (by decide) (by decide) (by decide)
    (by decide) (by decide)

/-- The running-maximum update of the stats loop is Nat.max. -/
theorem if_lt_eq_max (x y : Nat) : (if x < y then y else x) = Nat.max x y := by
  unfold Nat.max
  split_ifs <;> omega

/-- Componentwise characterisation of the stats fold from any
accumulator: counts add the number of slots in each class and the
maxima fold Nat.max over the identifiers of the class. -/
theorem stats_foldl (l : List psa_key_slot_t) (acc : mbedtls_psa_stats_t) :
    (l.foldl statsStep acc).empty_slots =
      acc.empty_slots + l.countP (fun s => !psa_is_key_slot_occupied s) ∧
    (l.foldl statsStep acc).volatile_slots =
      acc.volatile_slots + l.countP occupiedVolatile ∧
    (l.foldl statsStep acc).persistent_slots =
      acc.persistent_slots + l.countP occupiedPersistent ∧
    (l.foldl statsStep acc).ext_slots =
      acc.ext_slots + l.countP occupiedOther ∧
    (l.foldl statsStep acc).max_open_internal_key_id =
      ((l.filter occupiedPersistent).map
        (fun s => s.attr.id.key_id)).foldl Nat.max
        acc.max_open_internal_key_id ∧
    (l.foldl statsStep acc).max_open_ext_key_id =
      ((l.filter occupiedOther).map
        (fun s => s.attr.id.key_id)).foldl Nat.max
        acc.max_open_ext_key_id := by
  induction l generalizing acc with
  | nil => simp
  | cons a t ih =>
    simp only [List.foldl_cons, List.countP_cons, List.filter_cons]
    by_cases hocc : psa_is_key_slot_occupied a = false
    · have hstep : statsStep acc a =
          { acc with empty_slots := acc.empty_slots + 1 } := by
        simp [statsStep, hocc]
      have hcv : occupiedVolatile a = false := by
        simp [occupiedVolatile, hocc]
      have hcp : occupiedPersistent a = false := by
        simp [occupiedPersistent, hocc]
      have hco : occupiedOther a = false := by
        simp [occupiedOther, hocc]
      rw [hstep]
      rcases ih { acc with empty_slots := acc.empty_slots + 1 }
        with ⟨e1, e2, e3, e4, e5, e6⟩
      refine ⟨?_, ?_, ?_, ?_, ?_, ?_⟩ <;>
        simp [e1, e2, e3, e4, e5, e6, hocc, hcv, hcp, hco] <;> omega
    · have hocc2 : psa_is_key_slot_occupied a = true := by
        revert hocc
        cases psa_is_key_slot_occupied a <;> simp
      by_cases hv : a.attr.lifetime = PSA_KEY_LIFETIME_VOLATILE
      · have hstep : statsStep acc a =
            { acc with volatile_slots := acc.volatile_slots + 1 } := by
          simp [statsStep, hocc2, hv]
        have hcv : occupiedVolatile a = true := by
          simp [occupiedVolatile, hocc2, hv]
        have hcp : occupiedPersistent a = false := by
          simp [occupiedPersistent, hocc2, hv, PSA_KEY_LIFETIME_VOLATILE,
            PSA_KEY_LIFETIME_PERSISTENT]
        have hco : occupiedOther a = false := by
          simp [occupiedOther, hocc2, hv]
        rw [hstep]
        rcases ih { acc with volatile_slots := acc.volatile_slots + 1 }
          with ⟨e1, e2, e3, e4, e5, e6⟩
        refine ⟨?_, ?_, ?_, ?_, ?_, ?_⟩ <;>
          simp [e1, e2, e3, e4, e5, e6, hocc2, hcv, hcp, hco] <;> omega
      · by_cases hp : a.attr.lifetime = PSA_KEY_LIFETIME_PERSISTENT
        · have hbv : (a.attr.lifetime == PSA_KEY_LIFETIME_VOLATILE) =
              false := beq_eq_false_iff_ne.mpr hv
          have hbp : (a.attr.lifetime == PSA_KEY_LIFETIME_PERSISTENT) =
              true := by simp [hp]
          have hstep : statsStep acc a =
              { acc with
                persistent_slots := acc.persistent_slots + 1,
                max_open_internal_key_id :=
                  Nat.max acc.max_open_internal_key_id a.attr.id.key_id } := by
            simp [statsStep, hocc2, hv, hp, MBEDTLS_SVC_KEY_ID_GET_KEY_ID,
              if_lt_eq_max, PSA_KEY_LIFETIME_VOLATILE,
              PSA_KEY_LIFETIME_PERSISTENT]
          have hcv : occupiedVolatile a = false := by
            simp [occupiedVolatile, hbv]
          have hcp : occupiedPersistent a = true := by
            simp [occupiedPersistent, hocc2, hbp]
          have hco : occupiedOther a = false := by
            simp [occupiedOther, hbp]
          rw [hstep]
          rcases ih { acc with
              persistent_slots := acc.persistent_slots + 1,
              max_open_internal_key_id :=
                Nat.max acc.max_open_internal_key_id a.attr.id.key_id }
            with ⟨e1, e2, e3, e4, e5, e6⟩
          refine ⟨?_, ?_, ?_, ?_, ?_, ?_⟩ <;>
            simp [e1, e2, e3, e4, e5, e6, hocc2, hcv, hcp, hco] <;> omega
        · have hbv : (a.attr.lifetime == PSA_KEY_LIFETIME_VOLATILE) =
              false := beq_eq_false_iff_ne.mpr hv
          have hbp : (a.attr.lifetime == PSA_KEY_LIFETIME_PERSISTENT) =
              false := beq_eq_false_iff_ne.mpr hp
          have hstep : statsStep acc a =
              { acc with
                ext_slots := acc.ext_slots + 1,
                max_open_ext_key_id :=
                  Nat.max acc.max_open_ext_key_id a.attr.id.key_id } := by
            simp [statsStep, hocc2, hv, hp, MBEDTLS_SVC_KEY_ID_GET_KEY_ID,
              if_lt_eq_max]
          have hcv : occupiedVolatile a = false := by
            simp [occupiedVolatile, hbv]
          have hcp : occupiedPersistent a = false := by
            simp [occupiedPersistent, hbp]
          have hco : occupiedOther a = true := by
            simp [occupiedOther, hocc2, hbv, hbp]
          rw [hstep]
          rcases ih { acc with
              ext_slots := acc.ext_slots + 1,
              max_open_ext_key_id :=
                Nat.max acc.max_open_ext_key_id a.attr.id.key_id }
            with ⟨e1, e2, e3, e4, e5, e6⟩
          refine ⟨?_, ?_, ?_, ?_, ?_, ?_⟩ <;>
            simp [e1, e2, e3, e4, e5, e6, hocc2, hcv, hcp, hco] <;> omega

/-- Claim C8: mbedtls_psa_get_stats is a single read-only pass: the
state is returned unchanged, and the record holds exactly the counts of
unoccupied slots and of occupied slots with volatile, persistent and
other (external) lifetimes, plus, separately for the persistent and
external categories, the maximum identifier over that category (zero
when the category is empty); on the table with 2 volatile, 1 persistent
(identifier 50) and 1 empty slot it reports empty 1, volatile 2,
persistent 1, external 0, max persistent identifier 50. -/
theorem get_stats_spec (gd : psa_global_data_t) :
    (mbedtls_psa_get_stats gd).2 = gd ∧
    (mbedtls_psa_get_stats gd).1.empty_slots =
      gd.key_slots.countP (fun s => !psa_is_key_slot_occupied s) ∧
    (mbedtls_psa_get_stats gd).1.volatile_slots =
      gd.key_slots.countP occupiedVolatile ∧
    (mbedtls_psa_get_stats gd).1.persistent_slots =
      gd.key_slots.countP occupiedPersistent ∧
    (mbedtls_psa_get_stats gd).1.ext_slots =
      gd.key_slots.countP occupiedOther ∧
    (mbedtls_psa_get_stats gd).1.max_open_internal_key_id =
      ((gd.key_slots.filter occupiedPersistent).map
        (fun s => s.attr.id.key_id)).foldl Nat.max 0 ∧
    (mbedtls_psa_get_stats gd).1.max_open_ext_key_id =
      ((gd.key_slots.filter occupiedOther).map
        (fun s => s.attr.id.key_id)).foldl Nat.max 0 ∧
    mbedtls_psa_get_stats tableStatsExample =
      ({ volatile_slots := 2, persistent_slots := 1, ext_slots := 0,
         empty_slots := 1, max_open_internal_key_id := 50,
         max_open_ext_key_id := 0 }, tableStatsExample) := by
  rcases stats_foldl gd.key_slots statsInit with ⟨e1, e2, e3, e4, e5, e6⟩
  simp only [statsInit, Nat.zero_add] at e1 e2 e3 e4 e5 e6
  refine ⟨rfl, ?_, ?_, ?_, ?_, ?_, ?_, by decide⟩ <;>
    simp [mbedtls_psa_get_stats, statsInit, e1, e2, e3, e4, e5, e6]
